import Mathlib

/-!
Verification of the spatial row filter in `script/2025-05-22-mep.py`
(NREL/bambam).

The script loads a boundary geometry from a WKT file, reads a MEP matrix
CSV in chunks, derives a polygon for each row from its `grid_id` hex cell
identifier (h3 boundary vertices, reordered from (lat, lng) to (lng, lat)
and closed into a ring), indexes each chunk with the containment mask
`df.geometry.apply(in_bounds)`, concatenates the accumulated frames, and
writes the result to a CSV once at the end.

The embedding is faithful to the script as written, including two
consequences of the actual library semantics:

* `Series.apply` is elementwise, so `in_bounds` receives each shapely
  polygon of the `geometry` column itself — not a dataframe row — and its
  `row["geometry"]` subscript raises TypeError (shapely geometries are not
  subscriptable) on the first element of every nonempty chunk;
* the mask of an empty chunk (the single chunk a header-only file yields)
  is an empty object-dtype series, which pandas does not recognise as a
  boolean indexer, so `df[mask]` falls back to column-label selection and
  the resulting frame keeps zero columns.

External libraries (h3, shapely, pandas) are otherwise modelled at the
level of their documented behaviour: the hex-cell boundary lookup, the
containment test and the WKT parser are parameters of the embedded
functions, so every theorem below is proved for all possible behaviours of
those libraries.  Coordinates are modelled as exact integer pairs; none of
the verified claims depends on coordinate arithmetic.
-/

namespace Bambam

/-- A geographic coordinate pair, as produced by `h3.cell_to_boundary`
(which yields (lat, lng) tuples) and consumed by shapely (which expects
(x, y) = (lng, lat)).  The scripts only ever move these values around, so
they are modelled as exact integer pairs. -/
abbrev Point := Int × Int

/-- A polygon ring: the list of exterior coordinates of a shapely
`Polygon`, first vertex repeated at the end (shapely closes rings). -/
abbrev Polygon := List Point

/-- The tuple swap `(t[1], t[0])` from `hex_to_poly`. -/
def swapPt (t : Point) : Point := (t.2, t.1)

/-- Shapely `Polygon(coords)` closes the exterior ring: if the sequence
does not already end with its first point, the first point is appended. -/
def closeRing (coords : List Point) : List Point :=
  match coords with
  | [] => []
  | p :: _ => if coords.getLast? = some p then coords else coords ++ [p]

/-- A cell of the dataframe: CSV fields are strings, and the `geometry`
column assigned by the script holds shapely polygons. -/
inductive Value where
  | str : String → Value
  | poly : Polygon → Value
deriving DecidableEq, Repr

/-- One dataframe row: an association list from column name to cell
value, in column order. -/
abbrev Row := List (String × Value)

/-- Reading a column of a row: the first cell whose column name
matches. -/
def getCol (r : Row) (c : String) : Option Value :=
  match r with
  | [] => none
  | (c1, v) :: rest => if c1 = c then some v else getCol rest c

/-- Whether a row has a cell for column `c`. -/
def hasCol (r : Row) (c : String) : Bool :=
  r.any (fun kv => kv.1 = c)

/-- Overwrite the cells of column `c` in place. -/
def replaceCol (r : Row) (c : String) (v : Value) : Row :=
  r.map (fun kv => if kv.1 = c then (c, v) else kv)

/-- Pandas column assignment `df[c] = ...` applied to one row: if the
column exists its cells are overwritten in place, otherwise the column is
appended at the end. -/
def setCol (r : Row) (c : String) (v : Value) : Row :=
  if hasCol r c then replaceCol r c v else r ++ [(c, v)]

/-- The `grid_id` field of a row (`df.grid_id` per element).  It must be
present and hold a CSV string to be usable as an h3 index. -/
def rowGridId (r : Row) : Option String :=
  match getCol r "grid_id" with
  | some (Value.str s) => some s
  | _ => none

/-- A parsed CSV matrix (or one pandas DataFrame): the columns and the
data rows (each row keyed by the columns). -/
structure Matrix where
  header : List String
  rows : List Row
deriving DecidableEq, Repr

/-- Error-propagating map over a list, the order pandas applies a
function to the elements of a series: the first element whose image is an
error aborts the whole computation with that error. -/
def mapE (f : α → Except String β) : List α → Except String (List β)
  | [] => Except.ok []
  | a :: as =>
    match f a with
    | Except.error e => Except.error e
    | Except.ok b =>
      match mapE f as with
      | Except.error e => Except.error e
      | Except.ok bs => Except.ok (b :: bs)

/-- `hex_to_poly` from the script: look up the cell boundary in (lat, lng)
order, reorder each vertex to (lng, lat), and build a shapely polygon
(which closes the ring).  `cellToBoundary` models `h3.cell_to_boundary`;
an undecodable identifier raises, modelled as an error. -/
def hex_to_poly (cellToBoundary : String → Option (List Point)) (hex_id : String) :
    Except String Polygon :=
  match cellToBoundary hex_id with
  | none => Except.error (String.append "h3: invalid cell identifier " hex_id)
  | some coords => Except.ok (closeRing (coords.map swapPt))

/-- Derived polygon of one row: decode `grid_id` and convert it. -/
def rowPoly (cellToBoundary : String → Option (List Point)) (r : Row) :
    Except String Polygon :=
  match rowGridId r with
  | none => Except.error "dataframe has no usable grid_id column"
  | some s => hex_to_poly cellToBoundary s

/-- `df["geometry"] = df.grid_id.apply(hex_to_poly)` applied to one row:
store the derived polygon in the `geometry` column. -/
def addGeometry (cellToBoundary : String → Option (List Point)) (r : Row) :
    Except String Row :=
  match rowPoly cellToBoundary r with
  | Except.error e => Except.error e
  | Except.ok p => Except.ok (setCol r "geometry" (Value.poly p))

/-- The exception raised by subscripting a shapely geometry. -/
def typeErrorMsg : String := "TypeError: 'Polygon' object is not subscriptable"

/-- Python subscripting `row[key]` where `row` is a shapely polygon:
shapely geometries implement no item access, so the lookup always raises
TypeError.  (The result type is what `bounds.contains` would consume if
the lookup could succeed; no success value exists.) -/
def polygonGetItem (_row : Polygon) (_key : String) : Except String Polygon :=
  Except.error typeErrorMsg

/-- `in_bounds` from the script, applied as the script applies it: via
`df.geometry.apply(in_bounds)`, so its argument is one shapely polygon of
the `geometry` series, and the body `bounds.contains(row["geometry"])`
first subscripts that polygon.  `contains` models shapely's strict
containment test on the (opaque) boundary geometry of type `B`; it is
never reached. -/
def in_bounds (contains : B → Polygon → Bool) (bounds : B) (row : Polygon) :
    Except String Bool :=
  match polygonGetItem row "geometry" with
  | Except.error e => Except.error e
  | Except.ok g => Except.ok (contains bounds g)

/-- The value of the `geometry` column of one row of the annotated frame,
as the series `df.geometry` exposes it: one shapely polygon per row. -/
def geometryCell (r : Row) : Except String Polygon :=
  match getCol r "geometry" with
  | some (Value.poly p) => Except.ok p
  | _ => Except.error "AttributeError: geometry"

/-- The series `df.geometry` of an annotated chunk: the polygons of the
`geometry` column in row order. -/
def columnSeries (rows : List Row) : Except String (List Polygon) :=
  mapE geometryCell rows

/-- Chunk splitting, structurally recursive on a fuel bound so that it
evaluates: every step consumes at least one element, so fuel equal to the
list length always suffices. -/
def chunksOfAux (fuel : Nat) (c : Nat) (l : List α) : List (List α) :=
  match fuel, l with
  | _, [] => []
  | 0, l1 => [l1]
  | fuel1 + 1, x :: xs => (x :: xs.take (c - 1)) :: chunksOfAux fuel1 c (xs.drop (c - 1))

/-- The chunks of `pd.read_csv(..., chunksize=c)`: the first `c` rows,
then the chunks of the rest.  Pandas only accepts `c ≥ 1`, for which
every chunk has at most `c` rows. -/
def chunksOf (c : Nat) (l : List α) : List (List α) :=
  chunksOfAux l.length c l

/-- The chunk sequence yielded by iterating `pd.read_csv(file, chunksize=c)`.
On a file with a header row and no data rows the reader still yields one
empty dataframe (the parser's first-chunk special case returns an empty
frame carrying the header columns), so the loop body runs exactly once. -/
def readChunks (c : Nat) (rows : List Row) : List (List Row) :=
  match rows with
  | [] => [[]]
  | _ => chunksOf c rows

/-- Boolean row selection: keep the rows whose mask entry is true. -/
def filterByMask : List Row → List Bool → List Row
  | [], _ => []
  | _, [] => []
  | r :: rs, b :: bs => if b then r :: filterByMask rs bs else filterByMask rs bs

/-- `df[mask]` for a mask produced by `apply` over a series: a nonempty
boolean mask acts as a row indexer and preserves the columns; the mask of
an empty chunk, however, is an empty object-dtype series, which pandas
does not recognise as a boolean indexer (`lib.is_bool_array` is false for
empty arrays), so the indexing falls back to column-label selection with
an empty label list and the resulting frame keeps zero columns. -/
def maskSelect (df : Matrix) (mask : List Bool) : Matrix :=
  match mask with
  | [] => Matrix.mk [] (filterByMask df.rows mask)
  | _ => Matrix.mk df.header (filterByMask df.rows mask)

/-- Header of the annotated frame: assigning `df["geometry"]` leaves the
column set unchanged when a `geometry` column already exists and appends
it at the end otherwise. -/
def outHeader (header : List String) : List String :=
  if header.contains "geometry" then header else header ++ ["geometry"]

/-- The loop body of `run` for one chunk `df`: assign the derived
`geometry` column, evaluate the containment mask
`df.geometry.apply(in_bounds)` over the polygons of the geometry series,
and index the frame with the mask (`df[...].copy()`). -/
def processChunk (contains : B → Polygon → Bool) (bounds : B)
    (cellToBoundary : String → Option (List Point)) (df : Matrix) :
    Except String Matrix :=
  match mapE (addGeometry cellToBoundary) df.rows with
  | Except.error e => Except.error e
  | Except.ok dfg =>
    match columnSeries dfg with
    | Except.error e => Except.error e
    | Except.ok series =>
      match mapE (in_bounds contains bounds) series with
      | Except.error e => Except.error e
      | Except.ok mask => Except.ok (maskSelect (Matrix.mk (outHeader df.header) dfg) mask)

/-- Columns of stacked frames: those of the first frame, then the columns
of the rest that are new. -/
def unionCols (a b : List String) : List String :=
  a ++ b.filter (fun col => !(a.contains col))

/-- `pd.concat(in_bounds_acc)`: concatenating no frames raises; one frame
is returned as is; several frames stack their rows in order under the
union of their columns (cells absent from a frame are NaN, which `to_csv`
renders as empty fields). -/
def concatFrames : List Matrix → Except String Matrix
  | [] => Except.error "ValueError: No objects to concatenate"
  | [df] => Except.ok df
  | df :: df2 :: rest =>
    match concatFrames (df2 :: rest) with
    | Except.error e => Except.error e
    | Except.ok restDf =>
      Except.ok (Matrix.mk (unionCols df.header restDf.header) (df.rows ++ restDf.rows))

/-- The chunked run of `run`: read the matrix in chunks of `c` rows (each
chunk a frame with the input's columns), process every chunk in order,
and `pd.concat` the accumulated results. -/
def runMatrix (contains : B → Polygon → Bool) (bounds : B)
    (cellToBoundary : String → Option (List Point)) (c : Nat) (m : Matrix) :
    Except String Matrix :=
  match mapE (fun rows => processChunk contains bounds cellToBoundary (Matrix.mk m.header rows))
      (readChunks c m.rows) with
  | Except.error e => Except.error e
  | Except.ok acc => concatFrames acc

/-- The body of `run` after argument parsing: parse the boundary file's
text with `wkt.loads` (modelled by the parameter `wktLoads`; a malformed
description is an error raised before the matrix is touched), then run the
chunked filter. -/
def runScript (wktLoads : String → Except String B)
    (contains : B → Polygon → Bool)
    (cellToBoundary : String → Option (List Point))
    (boundaryText : String) (m : Matrix) (c : Nat) : Except String Matrix :=
  match wktLoads boundaryText with
  | Except.error e => Except.error e
  | Except.ok bounds => runMatrix contains bounds cellToBoundary c m

/-- Textual form of one cell, as `to_csv` renders it: strings verbatim,
polygons in their WKT form `POLYGON ((x y, ...))`. -/
def renderValue : Value → String
  | Value.str s => s
  | Value.poly p =>
    String.append "POLYGON (("
      (String.append
        (String.intercalate ", "
          (p.map (fun t => String.append (toString t.1) (String.append " " (toString t.2)))))
        "))")

/-- One CSV line of a row: the cells in header-column order. -/
def renderRow (header : List String) (r : Row) : String :=
  String.intercalate ","
    (header.map (fun c =>
      match getCol r c with
      | some v => renderValue v
      | none => ""))

/-- `result.to_csv(args.output_file, index=False)`: the header line
followed by one line per row, with no index column. -/
def writeCsv (m : Matrix) : List String :=
  String.intercalate "," m.header :: m.rows.map (renderRow m.header)

/-- The file produced at the output path by one run: the script writes the
result CSV exactly once, after the chunk loop has finished, so an error
anywhere earlier leaves no output file. -/
def scriptOutput (wktLoads : String → Except String B)
    (contains : B → Polygon → Bool)
    (cellToBoundary : String → Option (List Point))
    (boundaryText : String) (m : Matrix) (c : Nat) : Option (List String) :=
  match runScript wktLoads contains cellToBoundary boundaryText m c with
  | Except.error _ => none
  | Except.ok result => some (writeCsv result)

/-- Two consecutive invocations of the script on the same boundary file,
matrix file and chunk size: the pair of output files they produce. -/
def runScriptTwice (wktLoads : String → Except String B)
    (contains : B → Polygon → Bool)
    (cellToBoundary : String → Option (List Point))
    (boundaryText : String) (m : Matrix) (c : Nat) :
    Option (List String) × Option (List String) :=
  (scriptOutput wktLoads contains cellToBoundary boundaryText m c,
   scriptOutput wktLoads contains cellToBoundary boundaryText m c)

/-- The four positional arguments declared on the script's
`argparse.ArgumentParser`, with the default value declared for each
(`chunksize` declares `default=500_000`; the other three declare none). -/
def parserPositionals : List (String × Option Nat) :=
  [("wkt-boundary-file", none), ("mep-matrix-file", none),
   ("output_file", none), ("chunksize", some 500000)]

/-- Semantics of `parser.parse_args(argv)` for this parser, following
argparse's documented treatment of positionals: a positional declared
without `nargs` consumes exactly one command-line token and is required,
and its declared `default` is never consulted (defaults apply to
positionals only under `nargs` of question-mark or star); missing or
surplus tokens make parsing exit with a usage error. -/
def parse_args (argv : List String) : Except String (List (String × String)) :=
  if argv.length = parserPositionals.length then
    Except.ok (List.zip (parserPositionals.map Prod.fst) argv)
  else if argv.length < parserPositionals.length then
    Except.error "error: the following arguments are required"
  else
    Except.error "error: unrecognized arguments"

/-! Concrete instances of the library parameters, used to evaluate the
theorems below on explicit inputs.  They realise the concrete scenario of
the specification: a boundary that contains cell `hexA`'s polygon and not
cell `hexB`'s, and matrices of rows with payload columns. -/

/-- A concrete hex-grid system with two decodable cells whose boundary
vertices are given in (lat, lng) order, as `h3.cell_to_boundary` does. -/
def exCell : String → Option (List Point) := fun s =>
  if s = "hexA" then some [(10, 20), (30, 40), (50, 60)]
  else if s = "hexB" then some [(70, 80), (90, 100), (110, 120)]
  else none

/-- A concrete boundary-geometry type: the finite set of polygons the
boundary strictly contains, as a list. -/
def exContains : List Polygon → Polygon → Bool := fun bs p => bs.contains p

/-- A concrete boundary that contains exactly cell `hexA`'s derived
polygon. -/
def exBounds : List Polygon := [[(20, 10), (40, 30), (60, 50), (20, 10)]]

/-- A concrete WKT parser: one well-formed boundary description. -/
def exWkt : String → Except String (List Polygon) := fun s =>
  if s = "POLYGON ((0 0, 100 0, 100 100, 0 100, 0 0))" then Except.ok exBounds
  else Except.error "ParseException: could not parse WKT"

/-- The well-formed boundary text accepted by `exWkt`. -/
def exGoodWkt : String := "POLYGON ((0 0, 100 0, 100 100, 0 100, 0 0))"

/-- A matrix row whose cell polygon lies inside the boundary. -/
def exRowA : Row := [("grid_id", Value.str "hexA"), ("pop", Value.str "10")]

/-- A matrix row whose cell polygon lies outside the boundary. -/
def exRowB : Row := [("grid_id", Value.str "hexB"), ("pop", Value.str "20")]

/-- A matrix row whose hex identifier does not decode. -/
def exRowC : Row := [("grid_id", Value.str "hexC"), ("pop", Value.str "30")]

/-- A row that also carries a `geometry` column in the input. -/
def exRowG : Row :=
  [("grid_id", Value.str "hexA"), ("geometry", Value.str "ORIGINAL"),
   ("pop", Value.str "10")]

/-- A row with two payload columns. -/
def exRowP : Row :=
  [("grid_id", Value.str "hexA"), ("pop", Value.str "10"),
   ("score", Value.str "7")]

/-- The two-row example matrix of the specification's concrete scenario. -/
def exMatrix : Matrix := Matrix.mk ["grid_id", "pop"] [exRowA, exRowB]

/-- An example matrix containing an undecodable hex identifier. -/
def exMatrixBad : Matrix := Matrix.mk ["grid_id", "pop"] [exRowA, exRowC]

/-- An example matrix that already has a `geometry` column. -/
def exMatrixG : Matrix := Matrix.mk ["grid_id", "geometry", "pop"] [exRowG]

/-- An example matrix with payload columns and one in-boundary row. -/
def exMatrixP : Matrix := Matrix.mk ["grid_id", "pop", "score"] [exRowP]

/-! Helper lemmas. -/

theorem mapE_error_head {f : α → Except String β} {x : α} {xs : List α} {e : String}
    (hx : f x = Except.error e) : mapE f (x :: xs) = Except.error e := by
  simp [mapE, hx]

theorem mapE_ok_cons {f : α → Except String β} {x : α} {xs : List α} {l2 : List β}
    (h : mapE f (x :: xs) = Except.ok l2) :
    ∃ y ys, f x = Except.ok y ∧ l2 = y :: ys := by
  simp only [mapE] at h
  cases hx : f x with
  | error e => rw [hx] at h; exact absurd h (by simp)
  | ok y =>
    rw [hx] at h
    cases hr : mapE f xs with
    | error e => rw [hr] at h; exact absurd h (by simp)
    | ok ys =>
      rw [hr] at h
      exact ⟨y, ys, rfl, (Except.ok.inj h).symm⟩

/-- The containment test as the script applies it never returns: its
polygon subscript raises on every element. -/
theorem in_bounds_raises {contains : B → Polygon → Bool} (bounds : B) (p : Polygon) :
    in_bounds contains bounds p = Except.error typeErrorMsg := rfl

/-- Every nonempty chunk makes the loop body raise: either a hex
identifier of the chunk fails to decode during the geometry assignment, or
the containment mask raises TypeError on its first element. -/
theorem processChunk_error_of_nonempty (contains : B → Polygon → Bool) (bounds : B)
    (cb : String → Option (List Point)) (hdr : List String) (x : Row) (xs : List Row) :
    ∃ e, processChunk contains bounds cb (Matrix.mk hdr (x :: xs)) = Except.error e := by
  cases hm : mapE (addGeometry cb) (x :: xs) with
  | error e => exact ⟨e, by simp only [processChunk, hm]⟩
  | ok dfg =>
    rcases mapE_ok_cons hm with ⟨y, ys, hy, hdfg⟩
    subst hdfg
    cases hcs : columnSeries (y :: ys) with
    | error e => exact ⟨e, by simp only [processChunk, hm, hcs]⟩
    | ok series =>
      have hcs2 : mapE geometryCell (y :: ys) = Except.ok series := hcs
      rcases mapE_ok_cons hcs2 with ⟨p1, ps, hp1, hser⟩
      subst hser
      have hib : in_bounds contains bounds p1 = Except.error typeErrorMsg :=
        in_bounds_raises bounds p1
      exact ⟨typeErrorMsg, by simp only [processChunk, hm, hcs, mapE_error_head hib]⟩

/-- A run over a matrix with at least one data row always fails before the
final write: its first chunk is nonempty and the loop body raises there. -/
theorem runMatrix_error_of_nonempty (contains : B → Polygon → Bool) (bounds : B)
    (cb : String → Option (List Point)) (c : Nat) (hdr : List String)
    (x : Row) (xs : List Row) :
    ∃ e, runMatrix contains bounds cb c (Matrix.mk hdr (x :: xs)) = Except.error e := by
  rcases processChunk_error_of_nonempty contains bounds cb hdr x (xs.take (c - 1)) with ⟨e, he⟩
  refine ⟨e, ?_⟩
  simp only [runMatrix, readChunks, chunksOf, List.length_cons, chunksOfAux]
  rw [@mapE_error_head (List Row) Matrix
    (fun rows => processChunk contains bounds cb (Matrix.mk hdr rows))
    (x :: List.take (c - 1) xs) (chunksOfAux xs.length c (List.drop (c - 1) xs)) e he]

/-- `closeRing` yields a closed ring: it starts at the first vertex and
ends there as well. -/
theorem closeRing_closed {l : List Point} {p : Point} (h : l.head? = some p) :
    (closeRing l).head? = some p ∧ (closeRing l).getLast? = some p := by
  cases l with
  | nil => simp at h
  | cons q rest =>
    simp only [List.head?_cons, Option.some.injEq] at h
    subst h
    rw [closeRing]
    by_cases hl : (q :: rest).getLast? = some q
    · rw [if_pos hl]
      exact ⟨rfl, hl⟩
    · rw [if_neg hl]
      constructor
      · rw [List.cons_append, List.head?_cons]
      · rw [List.getLast?_append]
        simp

/-! The verified claims. -/

/-- C1: evaluated at the specification's own concrete scenario (a
boundary containing cell `hexA`'s polygon, rows `hexA`/`hexB`, chunk size
1), the run raises TypeError instead of producing the claimed filtered
dataset: `df.geometry.apply(in_bounds)` hands each polygon element to
`in_bounds`, whose `row["geometry"]` subscript fails, so no output is
written for any nonempty input. -/
theorem filter_run_raises_type_error_instead_of_filtering :
    runScript exWkt exContains exCell exGoodWkt exMatrix 1 =
      Except.error "TypeError: 'Polygon' object is not subscriptable" ∧
    scriptOutput exWkt exContains exCell exGoodWkt exMatrix 1 = none :=
  ⟨rfl, rfl⟩

/-- C2: the failure mode of the run depends on the chunk size.  On a
matrix whose first row decodes and whose second does not, chunk size 1
dies with the TypeError of the first chunk's containment mask, while chunk
size 2 dies with the h3 decode error of the second row; the outcomes
differ and neither yields any output rows, contradicting chunk-size
independence of the result. -/
theorem chunk_size_changes_failure_mode :
    runScript exWkt exContains exCell exGoodWkt exMatrixBad 1 =
      Except.error "TypeError: 'Polygon' object is not subscriptable" ∧
    runScript exWkt exContains exCell exGoodWkt exMatrixBad 2 =
      Except.error "h3: invalid cell identifier hexC" ∧
    runScript exWkt exContains exCell exGoodWkt exMatrixBad 1 ≠
      runScript exWkt exContains exCell exGoodWkt exMatrixBad 2 := by
  have h1 : runScript exWkt exContains exCell exGoodWkt exMatrixBad 1 =
      Except.error "TypeError: 'Polygon' object is not subscriptable" := rfl
  have h2 : runScript exWkt exContains exCell exGoodWkt exMatrixBad 2 =
      Except.error "h3: invalid cell identifier hexC" := rfl
  refine ⟨h1, h2, ?_⟩
  rw [h1, h2]
  intro h
  exact absurd (Except.error.inj h) (by decide)

/-- C3: for every decodable hex cell identifier, the derived polygon is
obtained by reordering each boundary vertex from (lat, lng) to (lng, lat)
in order and closing the result into a ring that starts and ends at the
first reordered vertex. -/
theorem hex_polygon_swaps_latlon_and_closes
    (cb : String → Option (List Point)) (hex : String) (pts : List Point)
    (p : Point) (h : cb hex = some pts)
    (hp : (pts.map swapPt).head? = some p) :
    hex_to_poly cb hex = Except.ok (closeRing (pts.map swapPt)) ∧
    (closeRing (pts.map swapPt)).head? = some p ∧
    (closeRing (pts.map swapPt)).getLast? = some p := by
  refine ⟨by simp only [hex_to_poly, h], ?_, ?_⟩
  · exact (closeRing_closed hp).1
  · exact (closeRing_closed hp).2

theorem hex_polygon_swaps_latlon_and_closes_witness :
    (exCell "hexA" = some [(10, 20), (30, 40), (50, 60)] ∧
     (([(10, 20), (30, 40), (50, 60)] : List Point).map swapPt).head? = some (20, 10)) ∧
    hex_to_poly exCell "hexA" =
      Except.ok (closeRing (([(10, 20), (30, 40), (50, 60)] : List Point).map swapPt)) ∧
    (closeRing (([(10, 20), (30, 40), (50, 60)] : List Point).map swapPt)).head? =
      some (20, 10) ∧
    (closeRing (([(10, 20), (30, 40), (50, 60)] : List Point).map swapPt)).getLast? =
      some (20, 10) :=
  ⟨⟨by decide, by decide⟩,
   hex_polygon_swaps_latlon_and_closes exCell "hexA" [(10, 20), (30, 40), (50, 60)]
     (20, 10) (by decide) (by decide)⟩

/-- C4: on a matrix file with a header row and zero data rows the run does
succeed, but the single empty chunk's mask is an empty object-dtype series
that pandas does not treat as a boolean indexer, so `df[mask]` keeps zero
columns: the output file is a single empty line, not the input columns
plus `geometry` as claimed. -/
theorem empty_matrix_output_loses_all_columns :
    runScript exWkt exContains exCell exGoodWkt (Matrix.mk ["grid_id", "pop"] []) 1 =
      Except.ok (Matrix.mk [] []) ∧
    scriptOutput exWkt exContains exCell exGoodWkt (Matrix.mk ["grid_id", "pop"] []) 1 =
      some [""] ∧
    scriptOutput exWkt exContains exCell exGoodWkt (Matrix.mk ["grid_id", "pop"] []) 1 ≠
      some [String.intercalate "," (["grid_id", "pop"] ++ ["geometry"])] := by
  have h2 : scriptOutput exWkt exContains exCell exGoodWkt
      (Matrix.mk ["grid_id", "pop"] []) 1 = some [""] := rfl
  refine ⟨rfl, h2, ?_⟩
  rw [h2]
  intro h
  exact absurd (Option.some.inj h) (by decide)

/-- C5: evaluating the script's argument parser, faithful to argparse's
treatment of positionals, at a command line that omits the chunk-size
token: parsing fails with a usage error — the `chunksize` positional was
declared without `nargs`, so it is required and its declared default of
500000 is never consulted — whereas a four-token command line binds all
four arguments.  This contradicts the claim that an omitted chunk size
falls back to the default 500000 and the run proceeds. -/
theorem chunksize_omitted_is_parse_error_despite_default :
    parse_args ["bounds.wkt", "matrix.csv", "out.csv"] =
      Except.error "error: the following arguments are required" ∧
    parse_args ["bounds.wkt", "matrix.csv", "out.csv", "500"] =
      Except.ok [("wkt-boundary-file", "bounds.wkt"), ("mep-matrix-file", "matrix.csv"),
        ("output_file", "out.csv"), ("chunksize", "500")] :=
  ⟨rfl, rfl⟩

/-- C6: when the boundary file's contents do not parse as WKT, the run
fails with that parse error and produces no output; the outcome is the
same for every matrix and chunk size, so no matrix row is read or
processed before the failure. -/
theorem malformed_boundary_fails_before_reading_matrix {B : Type}
    (wl : String → Except String B) (contains : B → Polygon → Bool)
    (cb : String → Option (List Point)) (bt : String) (e : String)
    (m : Matrix) (c : Nat)
    (hw : wl bt = Except.error e) :
    runScript wl contains cb bt m c = Except.error e ∧
    scriptOutput wl contains cb bt m c = none ∧
    ∀ m2 c2, runScript wl contains cb bt m2 c2 = Except.error e := by
  refine ⟨by simp [runScript, hw], by simp [scriptOutput, runScript, hw],
    fun m2 c2 => by simp [runScript, hw]⟩

theorem malformed_boundary_fails_before_reading_matrix_witness :
    exWkt "POLYGON((0 0, 1 0" = Except.error "ParseException: could not parse WKT" ∧
    runScript exWkt exContains exCell "POLYGON((0 0, 1 0" exMatrix 1 =
      Except.error "ParseException: could not parse WKT" ∧
    scriptOutput exWkt exContains exCell "POLYGON((0 0, 1 0" exMatrix 1 = none ∧
    ∀ m2 c2, runScript exWkt exContains exCell "POLYGON((0 0, 1 0" m2 c2 =
      Except.error "ParseException: could not parse WKT" :=
  ⟨rfl,
   malformed_boundary_fails_before_reading_matrix exWkt exContains exCell
     "POLYGON((0 0, 1 0" "ParseException: could not parse WKT" exMatrix 1 rfl⟩

/-- C7: the filter is deterministic — two invocations on the same boundary
file, matrix file and chunk size produce identical output files; the
embedded run is a pure function of those inputs (console progress output
is the only other effect and does not influence the result). -/
theorem same_inputs_give_identical_output_files {B : Type}
    (wl : String → Except String B) (contains : B → Polygon → Bool)
    (cb : String → Option (List Point)) (bt : String) (m : Matrix) (c : Nat) :
    (runScriptTwice wl contains cb bt m c).1 = (runScriptTwice wl contains cb bt m c).2 :=
  rfl

/-- C8: no run ever exhibits the claimed pass-through with an appended
`geometry` column: any run with a retainable row raises TypeError in the
containment mask and writes nothing, while the only successful run (zero
data rows) outputs a frame that has lost all of its columns — its header
line is empty, not the input columns plus `geometry`. -/
theorem passthrough_output_never_produced :
    runScript exWkt exContains exCell exGoodWkt exMatrixP 1 =
      Except.error "TypeError: 'Polygon' object is not subscriptable" ∧
    scriptOutput exWkt exContains exCell exGoodWkt exMatrixP 1 = none ∧
    scriptOutput exWkt exContains exCell exGoodWkt
      (Matrix.mk ["grid_id", "pop", "score"] []) 1 = some [""] ∧
    scriptOutput exWkt exContains exCell exGoodWkt
        (Matrix.mk ["grid_id", "pop", "score"] []) 1 ≠
      some [String.intercalate "," (["grid_id", "pop", "score"] ++ ["geometry"])] := by
  have h3 : scriptOutput exWkt exContains exCell exGoodWkt
      (Matrix.mk ["grid_id", "pop", "score"] []) 1 = some [""] := rfl
  refine ⟨rfl, rfl, h3, ?_⟩
  rw [h3]
  intro h
  exact absurd (Option.some.inj h) (by decide)

/-- C9: the geometry assignment does overwrite an existing `geometry`
column in the in-memory frame, but the run then raises TypeError while
evaluating the containment mask, so no output row is ever produced in
which the overwritten value could be observed — contrary to the claim
that the derived polygon appears in every output row. -/
theorem geometry_overwrite_never_reaches_output :
    mapE (addGeometry exCell) exMatrixG.rows =
      Except.ok [[("grid_id", Value.str "hexA"),
        ("geometry", Value.poly [(20, 10), (40, 30), (60, 50), (20, 10)]),
        ("pop", Value.str "10")]] ∧
    runScript exWkt exContains exCell exGoodWkt exMatrixG 1 =
      Except.error "TypeError: 'Polygon' object is not subscriptable" ∧
    scriptOutput exWkt exContains exCell exGoodWkt exMatrixG 1 = none :=
  ⟨rfl, rfl, rfl⟩

/-- C10: if the boundary text fails to parse or some row's hex identifier
fails to decode, no output file is created at the output path — the result
CSV is written exactly once, after all chunks have been processed, so an
error at any earlier stage (even in the last row of the last chunk) leaves
no partial output. -/
theorem any_error_before_write_leaves_no_output {B : Type}
    (wl : String → Except String B) (contains : B → Polygon → Bool)
    (cb : String → Option (List Point)) (bt : String) (m : Matrix) (c : Nat)
    (h : (∃ e, wl bt = Except.error e) ∨
         ∃ r ∈ m.rows, ∃ e, rowPoly cb r = Except.error e) :
    scriptOutput wl contains cb bt m c = none := by
  rcases h with ⟨e, hwe⟩ | ⟨r, hr, e, hp⟩
  · simp [scriptOutput, runScript, hwe]
  · obtain ⟨hh, rr⟩ := m
    cases hw : wl bt with
    | error e2 => simp [scriptOutput, runScript, hw]
    | ok bounds =>
      cases rr with
      | nil => exact absurd hr (by simp)
      | cons x xs =>
        rcases runMatrix_error_of_nonempty contains bounds cb c hh x xs with ⟨e3, he3⟩
        simp [scriptOutput, runScript, hw, he3]

theorem any_error_before_write_leaves_no_output_witness :
    scriptOutput exWkt exContains exCell exGoodWkt exMatrixBad 1 = none :=
  any_error_before_write_leaves_no_output exWkt exContains exCell exGoodWkt exMatrixBad 1
    (Or.inr ⟨exRowC, by decide, "h3: invalid cell identifier hexC", rfl⟩)

end Bambam
